import Mathlib

/-!
Verification development for the FESTIM hydrogen-transport simulation framework.
The sources under scrutiny are the interface-coupling assembly script
(`discontinuity_generic.py`) together with the test suite; the solver classes
themselves (`Simulation`, `Stepsize`, `FluxBC`, ...) are exercised by the tests
but their code is not part of the sources, so they are modelled here from the
specification, faithfully to its words, and marked as such in doc comments.
All machine reals are embedded as exact rationals.
-/

namespace Festim

/-- Modelled from the spec: the convergence test of the Block Newton Solver
(the solver class is missing from the sources; only its tests are present).
Iteration `i` has converged when the combined residual norm falls below
`absolute_tolerance`, or the relative decrease from the first iteration norm
falls below `relative_tolerance`.  A non-finite residual norm (from a
non-finite assembly, represented by `none`) meets neither criterion. -/
def newtonConvergedAt (atol rtol : ℚ) (norms : ℕ → Option ℚ) (i : ℕ) : Bool :=
  match norms i, norms 0 with
  | some r, some r0 => decide (r < atol) || decide (r < rtol * r0)
  | _, _ => false

/-- Modelled from the spec: the Newton solve succeeds exactly when some
iteration within the configured `maximum_iterations` meets one of the two
convergence criteria. -/
def newtonSolveConverges (atol rtol : ℚ) (maxit : ℕ) (norms : ℕ → Option ℚ) : Bool :=
  (List.range maxit).any (newtonConvergedAt atol rtol norms)

/-- Modelled from the spec: `Simulation.run` in stationary mode performs a
single Newton solve (no time loop) and aborts with a fatal error identifying
solver divergence when the solve exceeds `maximum_iterations` without meeting
either convergence criterion. -/
def run_stationary (atol rtol : ℚ) (maxit : ℕ) (norms : ℕ → Option ℚ) :
    Except String Unit :=
  if newtonSolveConverges atol rtol maxit norms then .ok ()
  else .error "The solver diverged, exiting"

/-- Modelled from the spec: the Arrhenius diffusivity `D_0*exp(-E_D/(k_B*T))`
evaluates to a finite machine number only for positive temperature; a fixed
negative temperature makes the exponent blow up positive and the diffusivity
non-finite. -/
def arrheniusFinite (T : ℚ) : Bool := decide (0 < T)

/-- Modelled from the spec: residual norms seen by the Newton solver in a
steady-state solve; when the diffusivity is non-finite every assembled
residual norm is non-finite (`none`). -/
def steadyResidualNorms (T : ℚ) (base : ℕ → ℚ) : ℕ → Option ℚ :=
  fun i => if arrheniusFinite T then some (base i) else none

/-- Claim C1: whenever the Newton iteration exceeds the configured
`maximum_iterations` without meeting either convergence criterion, `run`
aborts with a fatal error whose message contains the phrase
"The solver diverged", distinguishing solver divergence from configuration
errors. -/
theorem c1_run_diverges (atol rtol : ℚ) (maxit : ℕ) (norms : ℕ → Option ℚ)
    (h : ∀ i < maxit, newtonConvergedAt atol rtol norms i = false) :
    run_stationary atol rtol maxit norms = .error "The solver diverged, exiting" ∧
    ∃ pre post : String,
      "The solver diverged, exiting" = pre ++ "The solver diverged" ++ post := by
  refine ⟨?_, "", ", exiting", rfl⟩
  have hany : newtonSolveConverges atol rtol maxit norms = false := by
    unfold newtonSolveConverges
    rw [List.any_eq_false]
    intro i hi
    simp [h i (List.mem_range.mp hi)]
  unfold run_stationary
  rw [hany]
  rfl

/-- Witness for C1: the scenario of `test_error_steady_state_diverges` — a
steady-state solve with temperature fixed at `-1` (non-finite diffusivity)
under `maximum_iterations = 2` reliably yields the divergence error. -/
theorem c1_witness :
    run_stationary (1 / 10000000000) (1 / 10000000000) 2
        (steadyResidualNorms (-1) (fun _ => 1)) =
      .error "The solver diverged, exiting" ∧
    ∃ pre post : String,
      "The solver diverged, exiting" = pre ++ "The solver diverged" ++ post :=
  c1_run_diverges _ _ _ _ (by decide)

/-- Modelled from the spec: the mutable scalar stepsize state
`value, min, max, growth factor` of the adaptive time stepper (the `Stepsize`
class is missing from the sources; only its tests are present). -/
structure Stepsize where
  value : ℚ
  dt_min : ℚ
  dt_max : ℚ
  growth_factor : ℚ

/-- Modelled from the spec: the `Accepted` transition grows the stepsize by
the configured growth factor but never above the configured maximum. -/
def Stepsize.accept (s : Stepsize) : Stepsize :=
  { s with value := min (s.value * s.growth_factor) s.dt_max }

/-- Modelled from the spec: the `Rejected` transition halves the stepsize and
retries; when the resulting stepsize falls below `dt_min` the stepper fails
fatally with an error identifying solver divergence. -/
def Stepsize.reject (s : Stepsize) : Except String Stepsize :=
  if s.value / 2 < s.dt_min then
    .error "The solver diverged, stepsize fell below dt_min"
  else .ok { s with value := s.value / 2 }

/-- Claim C2: for a stepsize satisfying the configured bounds, every
`Accepted` adjustment keeps `dt_min ≤ value ≤ dt_max`; every successful
`Rejected` adjustment yields a strictly smaller stepsize still within the
bounds; and a rejection that would push the stepsize below `dt_min` raises a
fatal error (identifying divergence) instead. -/
theorem c2_stepsize_invariant (s : Stepsize) (h0 : 0 < s.dt_min)
    (h1 : s.dt_min ≤ s.value) (h2 : s.value ≤ s.dt_max)
    (h3 : 1 ≤ s.growth_factor) :
    (s.dt_min ≤ s.accept.value ∧ s.accept.value ≤ s.dt_max) ∧
    (s.dt_min ≤ s.value / 2 →
      s.reject = .ok { s with value := s.value / 2 } ∧
      s.dt_min ≤ s.value / 2 ∧ s.value / 2 < s.value ∧ s.value / 2 ≤ s.dt_max) ∧
    (s.value / 2 < s.dt_min →
      ∃ msg : String, s.reject = .error msg ∧
        ∃ pre post : String, msg = pre ++ "The solver diverged" ++ post) := by
  have hv0 : (0 : ℚ) < s.value := lt_of_lt_of_le h0 h1
  refine ⟨⟨?_, min_le_right _ _⟩, ?_, ?_⟩
  · refine le_min ?_ (h1.trans h2)
    calc s.dt_min ≤ s.value := h1
    _ = s.value * 1 := (mul_one _).symm
    _ ≤ s.value * s.growth_factor := by
        exact mul_le_mul_of_nonneg_left h3 (le_of_lt hv0)
  · intro hge
    have hlt : s.value / 2 < s.value := div_lt_self hv0 one_lt_two
    refine ⟨?_, hge, hlt, hlt.le.trans h2⟩
    unfold Stepsize.reject
    rw [if_neg (not_lt.mpr hge)]
  · intro hlt
    refine ⟨"The solver diverged, stepsize fell below dt_min", ?_,
      "", ", stepsize fell below dt_min", rfl⟩
    unfold Stepsize.reject
    rw [if_pos hlt]

/-- Witness for C2: a concrete stepsize with `value = 10`, `dt_min = 1`,
`dt_max = 20` and growth factor `2` satisfies all hypotheses of the
invariant theorem. -/
theorem c2_witness :
    ((Stepsize.mk 10 1 20 2).dt_min ≤ (Stepsize.mk 10 1 20 2).accept.value ∧
      (Stepsize.mk 10 1 20 2).accept.value ≤ (Stepsize.mk 10 1 20 2).dt_max) ∧
    ((Stepsize.mk 10 1 20 2).dt_min ≤ (Stepsize.mk 10 1 20 2).value / 2 →
      (Stepsize.mk 10 1 20 2).reject =
        .ok { Stepsize.mk 10 1 20 2 with
              value := (Stepsize.mk 10 1 20 2).value / 2 } ∧
      (Stepsize.mk 10 1 20 2).dt_min ≤ (Stepsize.mk 10 1 20 2).value / 2 ∧
      (Stepsize.mk 10 1 20 2).value / 2 < (Stepsize.mk 10 1 20 2).value ∧
      (Stepsize.mk 10 1 20 2).value / 2 ≤ (Stepsize.mk 10 1 20 2).dt_max) ∧
    ((Stepsize.mk 10 1 20 2).value / 2 < (Stepsize.mk 10 1 20 2).dt_min →
      ∃ msg : String, (Stepsize.mk 10 1 20 2).reject = .error msg ∧
        ∃ pre post : String, msg = pre ++ "The solver diverged" ++ post) :=
  c2_stepsize_invariant (Stepsize.mk 10 1 20 2)
    (by decide) (by decide) (by decide) (by decide)

/-- Scalar product on the plane, embedding `ufl.dot` for the 2d mesh of
`discontinuity_generic.py`. -/
def dot2 (a b : ℚ × ℚ) : ℚ := a.1 * b.1 + a.2 * b.2

/-- Embedding of `mixed_term(u, v, n) = ufl.dot(ufl.grad(u), n) * v`
(`discontinuity_generic.py`, line 190); the first argument here is the
gradient of the field that the source passes first. -/
def mixed_term (gu : ℚ × ℚ) (v : ℚ) (n : ℚ × ℚ) : ℚ := dot2 gu n * v

/-- Interior-penalty coefficient `gamma = 10.0`
(`discontinuity_generic.py`, line 199). -/
def gamma : ℚ := 10

/-- Jump of the chemical potential `u_b / K_b - u_t / K_t` across the
interface, the quantity the source penalises (lines 214, 219, 221, 222). -/
def potential_jump (u_b u_t K_b K_t : ℚ) : ℚ := u_b / K_b - u_t / K_t

/-- Penalty term `2 * gamma / (h_b + h_t) * (u_b / K_b - u_t / K_t) * v`
added to the bottom-subdomain residual (line 221) and subtracted from the
top-subdomain residual (line 222). -/
def penalty_term (h_b h_t jump v : ℚ) : ℚ := 2 * gamma / (h_b + h_t) * jump * v

/-- Pointwise integrand of the coupling form `F_0` added to the bottom
subdomain residual `subdomain_1.F` (lines 212-215 and 221, then line 224):
`-0.5*mixed_term(u_b + u_t, v_b, n_b) - 0.5*mixed_term(v_b, jump, n_b)
 + 2*gamma/(h_b + h_t)*jump*v_b`. -/
def F_0_integrand (u_b u_t v_b : ℚ) (gu_b gu_t gv_b n_b : ℚ × ℚ)
    (h_b h_t K_b K_t : ℚ) : ℚ :=
  -(1/2) * mixed_term (gu_b + gu_t) v_b n_b
    - (1/2) * mixed_term gv_b (u_b / K_b - u_t / K_t) n_b
    + 2 * gamma / (h_b + h_t) * (u_b / K_b - u_t / K_t) * v_b

/-- Pointwise integrand of the coupling form `F_1` added to the top
subdomain residual `subdomain_2.F` (lines 217-220 and 222, then line 225):
`+0.5*mixed_term(u_b + u_t, v_t, n_b) - 0.5*mixed_term(v_t, jump, n_b)
 - 2*gamma/(h_b + h_t)*jump*v_t`. -/
def F_1_integrand (u_b u_t v_t : ℚ) (gu_b gu_t gv_t n_b : ℚ × ℚ)
    (h_b h_t K_b K_t : ℚ) : ℚ :=
  (1/2) * mixed_term (gu_b + gu_t) v_t n_b
    - (1/2) * mixed_term gv_t (u_b / K_b - u_t / K_t) n_b
    - 2 * gamma / (h_b + h_t) * (u_b / K_b - u_t / K_t) * v_t

/-- Boundary term produced on the interface by Green identity applied to the
interior diffusion form `ufl.inner(ufl.grad(us[0]), ufl.grad(vs[0])) * dx_r`
(`discontinuity_generic.py`, line 154): for a strong solution the volume form
reduces to this flux pairing `(grad u . n) * v` on the subdomain boundary,
with `n` the outward normal of the subdomain. -/
def interior_flux_term (gu n : ℚ × ℚ) (v : ℚ) : ℚ := dot2 gu n * v

/-- Claim C3: the assembler augments the two adjacent subdomain residuals
with a symmetric interior-penalty coupling term: each integrand decomposes as
averaged-flux terms of the form `-1/2 * (jump terms) * test` plus the penalty
`2*gamma/(h_b + h_t) * (u_b/K_b - u_t/K_t) * test`, the penalty entering the
two residuals with opposite signs; `gamma` is fixed at `10`; and the coupling
is consistent: a solution with continuous chemical potential and continuous
normal flux across the interface contributes zero to the interface residual
of either subdomain (its jump terms vanish and its averaged-flux term exactly
cancels the natural boundary flux term of the interior form, the outward
normal of the top subdomain being `-n_b`). -/
theorem c3_interface_coupling (u_b u_t v_b v_t : ℚ)
    (gu_b gu_t gv_b gv_t n_b : ℚ × ℚ) (h_b h_t K_b K_t : ℚ)
    (hpot : u_b / K_b = u_t / K_t)
    (hflux : dot2 gu_b n_b = dot2 gu_t n_b) :
    (∀ u u' w : ℚ, ∀ gb gt gv n : ℚ × ℚ, ∀ hb ht Kb Kt : ℚ,
      F_0_integrand u u' w gb gt gv n hb ht Kb Kt =
        -(1/2) * mixed_term (gb + gt) w n
          - (1/2) * mixed_term gv (potential_jump u u' Kb Kt) n
          + penalty_term hb ht (potential_jump u u' Kb Kt) w ∧
      F_1_integrand u u' w gb gt gv n hb ht Kb Kt =
        (1/2) * mixed_term (gb + gt) w n
          - (1/2) * mixed_term gv (potential_jump u u' Kb Kt) n
          - penalty_term hb ht (potential_jump u u' Kb Kt) w) ∧
    gamma = 10 ∧
    (F_0_integrand u_b u_t v_b gu_b gu_t gv_b n_b h_b h_t K_b K_t +
        interior_flux_term gu_b n_b v_b = 0 ∧
      F_1_integrand u_b u_t v_t gu_b gu_t gv_t n_b h_b h_t K_b K_t +
        interior_flux_term gu_t (-n_b) v_t = 0) := by
  have hj : u_b / K_b - u_t / K_t = 0 := sub_eq_zero_of_eq hpot
  refine ⟨fun u u' w gb gt gv n hb ht Kb Kt => ⟨?_, ?_⟩, rfl, ?_, ?_⟩
  · simp only [F_0_integrand, penalty_term, potential_jump]
  · simp only [F_1_integrand, penalty_term, potential_jump]
  · simp only [F_0_integrand, interior_flux_term, mixed_term, dot2,
      Prod.fst_add, Prod.snd_add, Prod.fst_neg, Prod.snd_neg, hj]
    simp only [dot2] at hflux
    ring_nf
    linear_combination (v_b / 2) * hflux
  · simp only [F_1_integrand, interior_flux_term, mixed_term, dot2,
      Prod.fst_add, Prod.snd_add, Prod.fst_neg, Prod.snd_neg, hj]
    simp only [dot2] at hflux
    ring_nf
    linear_combination (v_t / 2) * hflux

/-- Witness for C3: concrete interface data with continuous potential
(`u_b = u_t = 0`) and continuous flux (equal gradients), with the solubility
values `K_b = 2`, `K_t = 4` fabricated in the source. -/
theorem c3_witness :
    (∀ u u' w : ℚ, ∀ gb gt gv n : ℚ × ℚ, ∀ hb ht Kb Kt : ℚ,
      F_0_integrand u u' w gb gt gv n hb ht Kb Kt =
        -(1/2) * mixed_term (gb + gt) w n
          - (1/2) * mixed_term gv (potential_jump u u' Kb Kt) n
          + penalty_term hb ht (potential_jump u u' Kb Kt) w ∧
      F_1_integrand u u' w gb gt gv n hb ht Kb Kt =
        (1/2) * mixed_term (gb + gt) w n
          - (1/2) * mixed_term gv (potential_jump u u' Kb Kt) n
          - penalty_term hb ht (potential_jump u u' Kb Kt) w) ∧
    gamma = 10 ∧
    (F_0_integrand 0 0 1 (1, 0) (1, 0) (0, 0) (1, 0) 1 1 2 4 +
        interior_flux_term (1, 0) (1, 0) 1 = 0 ∧
      F_1_integrand 0 0 1 (1, 0) (1, 0) (0, 0) (1, 0) 1 1 2 4 +
        interior_flux_term (1, 0) (-(1, 0)) 1 = 0) :=
  c3_interface_coupling 0 0 1 1 (1, 0) (1, 0) (0, 0) (0, 0) (1, 0) 1 1 2 4
    (by simp) rfl


/-- Modelled from the spec: the `TotalVolume` derived quantity of a nodal
field, the volume integral `sum over j of (integral of basis j) * c j`;
`m j` is the integral of the j-th basis function. -/
def totalQuantity {n : ℕ} (m c : Fin n → ℚ) : ℚ := ∑ j, m j * c j

/-- Modelled from the spec: in chemical-potential mode the mobile
concentration is re-parametrised as `c = S(T) * p` with `p` the chemical
potential and `S` the solubility at the current temperature. -/
def mobileConc {n : ℕ} (S : ℚ) (p : Fin n → ℚ) : Fin n → ℚ := fun j => S * p j

/-- Modelled from the spec: retention, mobile plus trapped concentration. -/
def retention {n : ℕ} (c ct : Fin n → ℚ) : Fin n → ℚ := fun j => c j + ct j

/-- Modelled from the spec: data of one implicit-Euler step of the transient
chemical-potential problem with zero-flux boundaries: `M` the mass matrix of
basis products, `K` the assembled stiffness matrix of the diffusion term
(including `D(T)` and `S(T)` at the new time), `dt` the stepsize, `react`
the nodal trapping exchange rate (zero when no trap is declared). -/
structure ChemPotStep (n : ℕ) where
  M : Fin n → Fin n → ℚ
  K : Fin n → Fin n → ℚ
  dt : ℚ
  react : Fin n → ℚ

/-- Modelled from the spec: residual of the mobile-species equation tested
against basis `i`: implicit-Euler time derivative `(c_new - c_old)/dt` paired
through `M`, diffusive term `K * p_new`, and the trapping sink. -/
def mobileResidual {n : ℕ} (st : ChemPotStep n) (sOld sNew : ℚ)
    (pOld pNew : Fin n → ℚ) (i : Fin n) : ℚ :=
  (∑ j, st.M i j * (sNew * pNew j - sOld * pOld j)) / st.dt
    + (∑ j, st.K i j * pNew j) + ∑ j, st.M i j * st.react j

/-- Modelled from the spec: residual of the trapped-species equation tested
against basis `i`. -/
def trappedResidual {n : ℕ} (st : ChemPotStep n) (ctOld ctNew : Fin n → ℚ)
    (i : Fin n) : ℚ :=
  (∑ j, st.M i j * (ctNew j - ctOld j)) / st.dt - ∑ j, st.M i j * st.react j

/-- Column pairing: when every column of `A` sums to `w`, pairing `A` against
a vector and summing all rows equals the `w`-weighted sum of the vector.
This is the discrete partition of unity: the finite-element test functions
sum to the constant one. -/
theorem col_pairing {n : ℕ} (A : Fin n → Fin n → ℚ) (w x : Fin n → ℚ)
    (hA : ∀ j, ∑ i, A i j = w j) :
    ∑ i, ∑ j, A i j * x j = ∑ j, w j * x j := by
  rw [Finset.sum_comm]
  exact Finset.sum_congr rfl fun j _ => by rw [← Finset.sum_mul, hA]

/-- One accepted implicit-Euler step with zero-flux boundaries (stiffness
columns sum to zero) and no declared trap conserves the total mobile and the
total trapped quantity. -/
theorem chemPot_step_conserved {n : ℕ} (st : ChemPotStep n) (m : Fin n → ℚ)
    (sOld sNew : ℚ) (pOld pNew ctOld ctNew : Fin n → ℚ)
    (hM : ∀ j, ∑ i, st.M i j = m j) (hK : ∀ j, ∑ i, st.K i j = 0)
    (hdt : st.dt ≠ 0) (hre : ∀ j, st.react j = 0)
    (hm_res : ∀ i, mobileResidual st sOld sNew pOld pNew i = 0)
    (ht_res : ∀ i, trappedResidual st ctOld ctNew i = 0) :
    totalQuantity m (mobileConc sNew pNew) = totalQuantity m (mobileConc sOld pOld) ∧
    totalQuantity m ctNew = totalQuantity m ctOld := by
  constructor
  · have h1 : ∑ i, mobileResidual st sOld sNew pOld pNew i = 0 :=
      Finset.sum_eq_zero fun i _ => hm_res i
    simp only [mobileResidual] at h1
    rw [Finset.sum_add_distrib, Finset.sum_add_distrib, ← Finset.sum_div,
      col_pairing st.M (fun j => m j) _ hM,
      col_pairing st.K (fun _ => 0) _ hK,
      col_pairing st.M (fun j => m j) _ hM] at h1
    simp only [zero_mul, Finset.sum_const_zero, add_zero, hre, mul_zero] at h1
    have h2 : ∑ j, m j * (sNew * pNew j - sOld * pOld j) = 0 :=
      ((div_eq_zero_iff).mp h1).resolve_right hdt
    simp only [mul_sub] at h2
    rw [Finset.sum_sub_distrib] at h2
    have h3 := sub_eq_zero.mp h2
    simpa only [totalQuantity, mobileConc] using h3
  · have h1 : ∑ i, trappedResidual st ctOld ctNew i = 0 :=
      Finset.sum_eq_zero fun i _ => ht_res i
    simp only [trappedResidual] at h1
    rw [Finset.sum_sub_distrib, ← Finset.sum_div,
      col_pairing st.M (fun j => m j) _ hM,
      col_pairing st.M (fun j => m j) _ hM] at h1
    simp only [hre, mul_zero, Finset.sum_const_zero, sub_zero] at h1
    have h2 : ∑ j, m j * (ctNew j - ctOld j) = 0 :=
      ((div_eq_zero_iff).mp h1).resolve_right hdt
    simp only [mul_sub] at h2
    rw [Finset.sum_sub_distrib] at h2
    have h3 := sub_eq_zero.mp h2
    simpa only [totalQuantity] using h3

/-- Claim C4: in a transient chemical-potential run with zero-flux
boundaries (every stiffness column sums to zero at every step, no declared
flux or Dirichlet data), no declared trap, and a spatially uniform initial
mobile quantity totalling `1`, the total mobile quantity and the total
retention (mobile plus trapped) still equal `1` at the end of the run, for
every trajectory of converged implicit-Euler steps under a time-varying
temperature (arbitrary per-step solubility `S` and stiffness `K`). -/
theorem c4_mass_balance (n N : ℕ) (m : Fin n → ℚ) (steps : ℕ → ChemPotStep n)
    (S : ℕ → ℚ) (p ct : ℕ → Fin n → ℚ)
    (hM : ∀ k < N, ∀ j, ∑ i, (steps k).M i j = m j)
    (hK : ∀ k < N, ∀ j, ∑ i, (steps k).K i j = 0)
    (hdt : ∀ k < N, (steps k).dt ≠ 0)
    (hno_trap : ∀ k < N, ∀ j, (steps k).react j = 0)
    (hm_res : ∀ k < N, ∀ i,
      mobileResidual (steps k) (S k) (S (k + 1)) (p k) (p (k + 1)) i = 0)
    (ht_res : ∀ k < N, ∀ i,
      trappedResidual (steps k) (ct k) (ct (k + 1)) i = 0)
    (hinit_mobile : totalQuantity m (mobileConc (S 0) (p 0)) = 1)
    (hinit_trap : totalQuantity m (ct 0) = 0) :
    totalQuantity m (mobileConc (S N) (p N)) = 1 ∧
    totalQuantity m (retention (mobileConc (S N) (p N)) (ct N)) = 1 := by
  have aux : ∀ k, k ≤ N →
      totalQuantity m (mobileConc (S k) (p k)) = 1 ∧
      totalQuantity m (ct k) = 0 := by
    intro k
    induction k with
    | zero => exact fun _ => ⟨hinit_mobile, hinit_trap⟩
    | succ k ih =>
      intro hk
      have hk' : k < N := Nat.lt_of_succ_le hk
      have ihk := ih (le_of_lt hk')
      have step := chemPot_step_conserved (steps k) m (S k) (S (k + 1))
        (p k) (p (k + 1)) (ct k) (ct (k + 1)) (hM k hk') (hK k hk')
        (hdt k hk') (hno_trap k hk') (hm_res k hk') (ht_res k hk')
      exact ⟨step.1.trans ihk.1, step.2.trans ihk.2⟩
  obtain ⟨h1, h2⟩ := aux N le_rfl
  refine ⟨h1, ?_⟩
  have hsplit : totalQuantity m (retention (mobileConc (S N) (p N)) (ct N)) =
      totalQuantity m (mobileConc (S N) (p N)) + totalQuantity m (ct N) := by
    simp only [totalQuantity, retention]
    rw [← Finset.sum_add_distrib]
    exact Finset.sum_congr rfl fun j _ => by ring
  rw [hsplit, h1, h2, add_zero]

/-- Witness for C4: a two-step run on a one-node discretisation with unit
mass vector, zero stiffness, unit stepsize and uniform unit concentration. -/
theorem c4_witness :
    totalQuantity (fun _ : Fin 1 => 1) (mobileConc ((fun _ : ℕ => (1 : ℚ)) 2)
        ((fun _ _ => 1) 2)) = 1 ∧
    totalQuantity (fun _ : Fin 1 => 1)
      (retention (mobileConc ((fun _ : ℕ => (1 : ℚ)) 2) ((fun _ _ => 1) 2))
        ((fun _ _ => 0) 2)) = 1 :=
  c4_mass_balance 1 2 (fun _ => 1)
    (fun _ => ChemPotStep.mk (fun _ _ => 1) (fun _ _ => 0) 1 (fun _ => 0))
    (fun _ => 1) (fun _ _ => 1) (fun _ _ => 0)
    (by simp) (by simp) (by simp)
    (by simp) (by simp [mobileResidual]) (by simp [trappedResidual])
    (by simp [totalQuantity, mobileConc]) (by simp [totalQuantity])

/-- Modelled from the spec: a trap with capture coefficient `k`, release
coefficient `p`, trap density `n_trap`, declared over a list of volume
subdomain ids (a strict subset of the mesh in general). -/
structure Trap where
  k : ℚ
  p : ℚ
  n_trap : ℚ
  volumes : List ℕ

/-- Modelled from the spec: the residual row a trap contributes for a
trapped-concentration degree of freedom living in volume subdomain `vol`:
the reaction terms `k*c_m*(n_trap - c_t) - p*c_t` where the trap is
declared, and no row (zero) elsewhere. -/
def trapResidualRow (tr : Trap) (vol : ℕ) (cm ct : ℚ) : ℚ :=
  if vol ∈ tr.volumes then tr.k * cm * (tr.n_trap - ct) - tr.p * ct else 0

/-- Modelled from the spec: Jacobian row entry of the trap residual with
respect to the mobile unknown. -/
def trapJacobianMobile (tr : Trap) (vol : ℕ) (cm ct : ℚ) : ℚ :=
  if vol ∈ tr.volumes then tr.k * (tr.n_trap - ct) else 0

/-- Modelled from the spec: Jacobian row entry of the trap residual with
respect to the trapped unknown. -/
def trapJacobianTrapped (tr : Trap) (vol : ℕ) (cm ct : ℚ) : ℚ :=
  if vol ∈ tr.volumes then -(tr.k * cm) - tr.p else 0

/-- Machine-float multiplication on `Option ℚ`: `none` models a non-finite
value (NaN) and propagates through arithmetic. -/
def fltMul : Option ℚ → Option ℚ → Option ℚ
  | some a, some b => some (a * b)
  | _, _ => none

/-- Machine-float subtraction with NaN propagation. -/
def fltSub : Option ℚ → Option ℚ → Option ℚ
  | some a, some b => some (a - b)
  | _, _ => none

/-- Modelled from the spec: the trap residual row evaluated in machine
arithmetic; in an undeclared subdomain the row is the literal zero form, not
an arithmetic expression in the local unknowns, so NaN cannot propagate. -/
def trapResidualRowF (tr : Trap) (vol : ℕ) (cm ct : Option ℚ) : Option ℚ :=
  if vol ∈ tr.volumes then
    fltSub (fltMul (fltMul (some tr.k) cm) (fltSub (some tr.n_trap) ct))
      (fltMul (some tr.p) ct)
  else some 0

/-- Modelled from the spec: after the solve, a trapped degree of freedom in
a subdomain with no trap rows keeps its finite initial value (the
implementation guarantee that untouched regions see no update). -/
def solvedTrapValue (tr : Trap) (vol : ℕ) (init : ℚ) (solved : Option ℚ) :
    Option ℚ :=
  if vol ∈ tr.volumes then solved else some init

/-- NaN test on machine values. -/
def isNaN : Option ℚ → Bool
  | none => true
  | some _ => false

/-- Claim C5: a trap declared over a strict subset of the volume subdomains
contributes zero residual and zero Jacobian rows in every subdomain where it
is not declared — even in machine arithmetic with non-finite local unknowns
the contributed row is a finite zero — and the solved trapped concentration
at a point of such a subdomain is not NaN. -/
theorem c5_traps_subset (tr : Trap) (vol : ℕ) (cm ct : ℚ)
    (cmF ctF : Option ℚ) (init : ℚ) (solved : Option ℚ)
    (h : vol ∉ tr.volumes) :
    trapResidualRow tr vol cm ct = 0 ∧
    trapJacobianMobile tr vol cm ct = 0 ∧
    trapJacobianTrapped tr vol cm ct = 0 ∧
    trapResidualRowF tr vol cmF ctF = some 0 ∧
    isNaN (solvedTrapValue tr vol init solved) = false := by
  refine ⟨?_, ?_, ?_, ?_, ?_⟩ <;>
    simp [trapResidualRow, trapJacobianMobile, trapJacobianTrapped,
      trapResidualRowF, solvedTrapValue, isNaN, h]

/-- Witness for C5: the trap of `test_steady_state_traps_not_everywhere`,
declared on subdomains 1 and 3 only, evaluated in subdomain 2 with NaN
local unknowns. -/
theorem c5_witness :
    trapResidualRow (Trap.mk 1 1 1 [1, 3]) 2 5 7 = 0 ∧
    trapJacobianMobile (Trap.mk 1 1 1 [1, 3]) 2 5 7 = 0 ∧
    trapJacobianTrapped (Trap.mk 1 1 1 [1, 3]) 2 5 7 = 0 ∧
    trapResidualRowF (Trap.mk 1 1 1 [1, 3]) 2 none none = some 0 ∧
    isNaN (solvedTrapValue (Trap.mk 1 1 1 [1, 3]) 2 0 none) = false :=
  c5_traps_subset (Trap.mk 1 1 1 [1, 3]) 2 5 7 none none 0 none (by decide)

/-- Declared argument of a user-supplied value callable: position `x`, time
`t` or temperature `T`. -/
inductive BCArg where
  | x : BCArg
  | t : BCArg
  | T : BCArg
deriving DecidableEq

/-- Modelled from the spec: the value a user callable returns: a Python
float, an int, or a symbolic ufl `Conditional` (its condition already
evaluated at the point of call, with the two branch values). -/
inductive PyVal where
  | float : ℚ → PyVal
  | int : ℤ → PyVal
  | conditional : Bool → ℚ → ℚ → PyVal

/-- Python type name of a returned value. -/
def PyVal.typeName : PyVal → String
  | .float _ => "float"
  | .int _ => "int"
  | .conditional _ _ _ => "ufl.conditional.Conditional"

/-- Numeric evaluation of a returned value. -/
def PyVal.eval : PyVal → ℚ
  | .float q => q
  | .int z => z
  | .conditional c a b => if c then a else b

/-- Modelled from the spec: a user-supplied boundary-condition value:
a numeric constant, the Python `None`, an already-built `fem.Constant`, or a
callable with a declared argument list over `x`, `t`, `T` and a body mapping
the three scalars to a returned value. -/
inductive BCValue where
  | number : ℚ → BCValue
  | pynone : BCValue
  | fenicsConstant : ℚ → BCValue
  | callable : List BCArg → (ℚ → ℚ → ℚ → PyVal) → BCValue

/-- Modelled from the spec: the `time_dependent` flag is derived purely from
the declared dependencies: true exactly when the value is a callable whose
declared arguments include `t`. -/
def time_dependent : BCValue → Bool
  | .callable args _ => decide (BCArg.t ∈ args)
  | _ => false

/-- Modelled from the spec: the `temperature_dependent` flag, true exactly
when the value is a callable whose declared arguments include `T`. -/
def temperature_dependent : BCValue → Bool
  | .callable args _ => decide (BCArg.T ∈ args)
  | _ => false

/-- Claim C6: `time_dependent` (resp. `temperature_dependent`) is true iff
the value is a callable whose declared arguments include `t` (resp. `T`);
both are false for numeric constants, `None` and `fem.Constant` values; and
they depend on the declared arguments only: any callable of `(x, t)` — in
particular one whose body conditionally switches on `t` — is time dependent
but not temperature dependent, whatever its body. -/
theorem c6_dependency_flags (v : BCValue) :
    (time_dependent v = true ↔
      ∃ args body, v = BCValue.callable args body ∧ BCArg.t ∈ args) ∧
    (temperature_dependent v = true ↔
      ∃ args body, v = BCValue.callable args body ∧ BCArg.T ∈ args) ∧
    (∀ c : ℚ, time_dependent (BCValue.number c) = false ∧
      temperature_dependent (BCValue.number c) = false) ∧
    (time_dependent BCValue.pynone = false ∧
      temperature_dependent BCValue.pynone = false) ∧
    (∀ c : ℚ, time_dependent (BCValue.fenicsConstant c) = false ∧
      temperature_dependent (BCValue.fenicsConstant c) = false) ∧
    (∀ body : ℚ → ℚ → ℚ → PyVal,
      time_dependent (BCValue.callable [BCArg.x, BCArg.t] body) = true ∧
      temperature_dependent (BCValue.callable [BCArg.x, BCArg.t] body) = false) := by
  refine ⟨?_, ?_, fun c => ⟨rfl, rfl⟩, ⟨rfl, rfl⟩, fun c => ⟨rfl, rfl⟩,
    fun body => ⟨by simp [time_dependent], by simp [temperature_dependent]⟩⟩
  · cases v <;> simp [time_dependent]
  · cases v <;> simp [temperature_dependent]

/-- Keys of a material dictionary (modelled as an association list). -/
def materialKeys (m : List (String × ℚ)) : List String := m.map Prod.fst

/-- Two key lists describe the same key set. -/
def sameKeys (a b : List String) : Bool :=
  a.all (fun k => b.contains k) && b.all (fun k => a.contains k)

/-- Every material dictionary has the same key set as the first one. -/
def keysConsistent : List (List (String × ℚ)) → Bool
  | [] => true
  | m :: rest => rest.all (fun m2 => sameKeys (materialKeys m) (materialKeys m2))

/-- The list of `id` values declared by the materials. -/
def materialIds (mats : List (List (String × ℚ))) : List ℚ :=
  mats.filterMap (fun m => m.lookup "id")

/-- Modelled from the spec: `Simulation.define_materials` validates the
declarative material dictionaries at setup, raising a catchable `ValueError`
(an `Except.error` here, never a process kill) when the key sets differ or
when two materials share the same id. -/
def define_materials (mats : List (List (String × ℚ))) : Except String Unit :=
  if keysConsistent mats = false then
    .error "Some materials keys are not the same"
  else if decide (materialIds mats).Nodup = false then
    .error "Some materials have the same id"
  else .ok ()

/-- Claim C7: setup-time material validation fails with a catchable error
matching "keys are not the same" when the material dictionaries do not all
share one key set, and with a catchable error matching "Some materials have
the same id" when two materials share an id. -/
theorem c7_material_validation (mats1 mats2 : List (List (String × ℚ)))
    (h1 : keysConsistent mats1 = false)
    (h2 : keysConsistent mats2 = true)
    (h3 : ¬ (materialIds mats2).Nodup) :
    (∃ msg, define_materials mats1 = .error msg ∧
      ∃ pre post, msg = pre ++ "keys are not the same" ++ post) ∧
    (∃ msg, define_materials mats2 = .error msg ∧
      ∃ pre post, msg = pre ++ "Some materials have the same id" ++ post) := by
  constructor
  · refine ⟨"Some materials keys are not the same", ?_, "Some materials ", "", rfl⟩
    unfold define_materials
    rw [h1]
    rfl
  · refine ⟨"Some materials have the same id", ?_, "", "", rfl⟩
    unfold define_materials
    rw [h2]
    simp [h3]

/-- Witness for C7: the material dictionaries of `test_keys_dont_match`
(first material lacking the `rho` key) and of
`test_different_ids_in_materials` (both materials with id 1). -/
theorem c7_witness :
    (∃ msg, define_materials
        [[("D_0", 1), ("E_D", 2), ("S_0", 3), ("E_S", 4), ("id", 1),
          ("heat_capacity", 6), ("thermal_cond", 7), ("borders", 0)],
         [("D_0", 2), ("E_D", 3), ("S_0", 4), ("E_S", 5), ("id", 2),
          ("rho", 6), ("heat_capacity", 7), ("thermal_cond", 8),
          ("borders", 0)]] = .error msg ∧
      ∃ pre post, msg = pre ++ "keys are not the same" ++ post) ∧
    (∃ msg, define_materials
        [[("D_0", 1), ("E_D", 2), ("id", 1), ("borders", 0)],
         [("D_0", 2), ("E_D", 3), ("id", 1), ("borders", 0)]] = .error msg ∧
      ∃ pre post, msg = pre ++ "Some materials have the same id" ++ post) :=
  c7_material_validation _ _ (by decide) (by decide) (by decide)

/-- Witness for C6: the flags evaluated on a numeric value and on callables
from the test tables. -/
theorem c6_witness :
    (time_dependent (BCValue.number 1) = true ↔
      ∃ args body, BCValue.number 1 = BCValue.callable args body ∧
        BCArg.t ∈ args) ∧
    (temperature_dependent (BCValue.number 1) = true ↔
      ∃ args body, BCValue.number 1 = BCValue.callable args body ∧
        BCArg.T ∈ args) ∧
    (∀ c : ℚ, time_dependent (BCValue.number c) = false ∧
      temperature_dependent (BCValue.number c) = false) ∧
    (time_dependent BCValue.pynone = false ∧
      temperature_dependent BCValue.pynone = false) ∧
    (∀ c : ℚ, time_dependent (BCValue.fenicsConstant c) = false ∧
      temperature_dependent (BCValue.fenicsConstant c) = false) ∧
    (∀ body : ℚ → ℚ → ℚ → PyVal,
      time_dependent (BCValue.callable [BCArg.x, BCArg.t] body) = true ∧
      temperature_dependent (BCValue.callable [BCArg.x, BCArg.t] body) = false) :=
  c6_dependency_flags (BCValue.number 1)

/-- Modelled from the spec: the resolved fenics value: a `fem.Constant`
holding a scalar, or a `fem.Function` holding a nodal field of position. -/
inductive ValueFenics where
  | constant : ℚ → ValueFenics
  | function : (ℚ → ℚ) → ValueFenics

/-- Modelled from the spec: `create_value_fenics` resolves a value according
to its declared dependency arity.  A plain number becomes a `fem.Constant`.
A callable declaring only `t` is evaluated at the current time and must
return a float or an int, which becomes a `fem.Constant`; any other returned
type raises a `ValueError` naming the expected numeric types and the
offending returned type.  Any other callable (in particular one whose
declared arguments include `x`) is interpolated into a `fem.Function`, the
field of its values at the current `t` and `T`.  A pre-built `fem.Constant`
is kept as a constant and a `None` value is rejected. -/
def create_value_fenics (v : BCValue) (t T : ℚ) : Except String ValueFenics :=
  match v with
  | .number c => .ok (.constant c)
  | .fenicsConstant c => .ok (.constant c)
  | .pynone => .error "no value supplied"
  | .callable args body =>
    if decide (BCArg.t ∈ args) && !(decide (BCArg.x ∈ args))
        && !(decide (BCArg.T ∈ args)) then
      match body 0 t T with
      | .float c => .ok (.constant c)
      | .int z => .ok (.constant (z : ℚ))
      | r => .error ("self.value should return a float or an int, not "
          ++ r.typeName)
    else
      .ok (.function (fun x => (body x t T).eval))

/-- Claim C8: when a user callable of `t` returns a value that is not a
float or an int — a ufl `Conditional`, say — `create_value_fenics` fails
with an error whose message names the expected numeric types ("float or an
int") and the offending returned type ("ufl.conditional.Conditional"). -/
theorem c8_value_type_error (t T : ℚ) (args : List BCArg)
    (body : ℚ → ℚ → ℚ → PyVal)
    (ht : BCArg.t ∈ args) (hx : BCArg.x ∉ args) (hT : BCArg.T ∉ args)
    (cnd : Bool) (a b : ℚ)
    (hbody : body 0 t T = PyVal.conditional cnd a b) :
    create_value_fenics (BCValue.callable args body) t T =
      .error "self.value should return a float or an int, not ufl.conditional.Conditional" ∧
    (∃ pre post : String,
      "self.value should return a float or an int, not ufl.conditional.Conditional"
        = pre ++ "float or an int" ++ post) ∧
    (∃ pre post : String,
      "self.value should return a float or an int, not ufl.conditional.Conditional"
        = pre ++ "ufl.conditional.Conditional" ++ post) := by
  refine ⟨?_,
    ⟨"self.value should return a ", ", not ufl.conditional.Conditional", rfl⟩,
    ⟨"self.value should return a float or an int, not ", "", rfl⟩⟩
  have h1 : decide (BCArg.t ∈ args) = true := decide_eq_true ht
  have h2 : decide (BCArg.x ∈ args) = false := decide_eq_false hx
  have h3 : decide (BCArg.T ∈ args) = false := decide_eq_false hT
  simp only [create_value_fenics, h1, h2, h3, Bool.not_false, Bool.and_self,
    Bool.true_and, Bool.and_true, if_true, hbody]
  rfl

/-- Witness for C8: the callable of `t` of
`test_ValueError_raised_when_callable_returns_wrong_type`, returning a ufl
conditional, resolved at `t = 0`, `T = 550`. -/
theorem c8_witness :
    create_value_fenics
        (BCValue.callable [BCArg.t] (fun _ _ _ => PyVal.conditional true 100 0))
        0 550 =
      .error "self.value should return a float or an int, not ufl.conditional.Conditional" ∧
    (∃ pre post : String,
      "self.value should return a float or an int, not ufl.conditional.Conditional"
        = pre ++ "float or an int" ++ post) ∧
    (∃ pre post : String,
      "self.value should return a float or an int, not ufl.conditional.Conditional"
        = pre ++ "ufl.conditional.Conditional" ++ post) :=
  c8_value_type_error 0 550 [BCArg.t] (fun _ _ _ => PyVal.conditional true 100 0)
    (by decide) (by decide) (by decide) true 100 0 rfl

/-- Claim C9: `create_value_fenics` dispatches on the declared dependency
arity: a plain number yields a `fem.Constant` with that value; a callable
declaring only `t` whose body returns a float yields a `fem.Constant` whose
value is the body evaluated at the current time; a callable whose declared
arguments include `x` yields a `fem.Function` whose value at every position
is the supplied callable evaluated there at the current `(t, T)`. -/
theorem c9_create_value_dispatch (c t T q : ℚ) (args args2 : List BCArg)
    (body body2 : ℚ → ℚ → ℚ → PyVal)
    (ht : BCArg.t ∈ args) (hx : BCArg.x ∉ args) (hT : BCArg.T ∉ args)
    (hbody : body 0 t T = PyVal.float q)
    (hx2 : BCArg.x ∈ args2) :
    create_value_fenics (BCValue.number c) t T = .ok (.constant c) ∧
    create_value_fenics (BCValue.callable args body) t T = .ok (.constant q) ∧
    q = (body 0 t T).eval ∧
    create_value_fenics (BCValue.callable args2 body2) t T =
      .ok (.function (fun x => (body2 x t T).eval)) := by
  have h1 : decide (BCArg.t ∈ args) = true := decide_eq_true ht
  have h2 : decide (BCArg.x ∈ args) = false := decide_eq_false hx
  have h3 : decide (BCArg.T ∈ args) = false := decide_eq_false hT
  have h4 : decide (BCArg.x ∈ args2) = true := decide_eq_true hx2
  refine ⟨rfl, ?_, ?_, ?_⟩
  · simp only [create_value_fenics, h1, h2, h3, Bool.not_false, Bool.and_self,
      Bool.true_and, Bool.and_true, if_true, hbody]
  · rw [hbody]
    rfl
  · simp only [create_value_fenics, h4, Bool.not_true, Bool.and_false,
      Bool.false_and, Bool.and_self, if_false]
    rfl

/-- Witness for C9: rows of the `test_create_value_fenics_type` and
`test_create_value_fenics_value` tables — the number `1.0`, the callable
`fun t => t`, and the space-dependent callable `fun x => x`, resolved at
`t = 0`, `T = 1`. -/
theorem c9_witness :
    create_value_fenics (BCValue.number 1) 0 1 = .ok (.constant 1) ∧
    create_value_fenics
        (BCValue.callable [BCArg.t] (fun _ t _ => PyVal.float t)) 0 1 =
      .ok (.constant 0) ∧
    (0 : ℚ) = ((fun _ t _ => PyVal.float t) (0 : ℚ) (0 : ℚ) (1 : ℚ)).eval ∧
    create_value_fenics
        (BCValue.callable [BCArg.x] (fun x _ _ => PyVal.float x)) 0 1 =
      .ok (.function
        (fun x => ((fun x _ _ => PyVal.float x) x (0 : ℚ) (1 : ℚ)).eval)) :=
  c9_create_value_dispatch 1 0 1 0 [BCArg.t] [BCArg.x]
    (fun _ t _ => PyVal.float t) (fun x _ _ => PyVal.float x)
    (by decide) (by decide) (by decide) rfl (by decide)

/-- Modelled from the spec: a Python object offered to the `value_fenics`
attribute of a `FluxBC`. -/
inductive PyObj where
  | femFunction : PyObj
  | femConstant : ℚ → PyObj
  | ndarray : List ℚ → PyObj
  | pystr : String → PyObj
  | pyfloat : ℚ → PyObj

/-- Python type name of an offered object. -/
def PyObj.typeName : PyObj → String
  | .femFunction => "dolfinx.fem.Function"
  | .femConstant _ => "dolfinx.fem.Constant"
  | .ndarray _ => "np.ndarray"
  | .pystr _ => "str"
  | .pyfloat _ => "float"

/-- The accepted types: `dolfinx.fem.Function`, `dolfinx.fem.Constant`
and `np.ndarray`. -/
def PyObj.accepted : PyObj → Bool
  | .femFunction => true
  | .femConstant _ => true
  | .ndarray _ => true
  | _ => false

/-- Modelled from the spec: the `value_fenics` property setter of `FluxBC`
type-checks the assigned object and raises a `TypeError` stating the
accepted types and the offending type for anything else. -/
def set_value_fenics (v : PyObj) : Except String PyObj :=
  if v.accepted then .ok v
  else .error
    ("Value must be a dolfinx.fem.Function, dolfinx.fem.Constant, or a np.ndarray not "
      ++ v.typeName)

/-- Modelled from the spec: the `FluxBC` object: subdomain, value, species,
and the resolved `value_fenics` and `bc_expr` slots. -/
structure FluxBC where
  subdomain : ℕ
  value : BCValue
  species : String
  value_fenics : Option PyObj
  bc_expr : Option String

/-- Modelled from the spec: the `FluxBC` constructor stores subdomain, value
and species and leaves `value_fenics` and `bc_expr` unset (`None`) until
`create_value_fenics` runs. -/
def FluxBC.init (subdomain : ℕ) (value : BCValue) (species : String) : FluxBC :=
  ⟨subdomain, value, species, none, none⟩

/-- Claim C10: assigning to `value_fenics` any object that is not a
`dolfinx.fem.Function`, a `dolfinx.fem.Constant` or a `np.ndarray` (a
string, say) raises a `TypeError` whose message states the accepted types
and the offending type; and after construction, before `create_value_fenics`
ran, both `value_fenics` and `bc_expr` are `None`. -/
theorem c10_setter_and_init (v : PyObj) (h : PyObj.accepted v = false)
    (sub : ℕ) (val : BCValue) (sp : String) :
    set_value_fenics v = .error
      ("Value must be a dolfinx.fem.Function, dolfinx.fem.Constant, or a np.ndarray not "
        ++ PyObj.typeName v) ∧
    (∃ pre post : String,
      ("Value must be a dolfinx.fem.Function, dolfinx.fem.Constant, or a np.ndarray not " : String)
        = pre ++ "dolfinx.fem.Function" ++ post) ∧
    (∃ pre post : String,
      ("Value must be a dolfinx.fem.Function, dolfinx.fem.Constant, or a np.ndarray not " : String)
        = pre ++ "dolfinx.fem.Constant" ++ post) ∧
    (∃ pre post : String,
      ("Value must be a dolfinx.fem.Function, dolfinx.fem.Constant, or a np.ndarray not " : String)
        = pre ++ "np.ndarray" ++ post) ∧
    (FluxBC.init sub val sp).value_fenics = none ∧
    (FluxBC.init sub val sp).bc_expr = none := by
  refine ⟨?_,
    ⟨"Value must be a ", ", dolfinx.fem.Constant, or a np.ndarray not ", rfl⟩,
    ⟨"Value must be a dolfinx.fem.Function, ", ", or a np.ndarray not ", rfl⟩,
    ⟨"Value must be a dolfinx.fem.Function, dolfinx.fem.Constant, or a ",
      " not ", rfl⟩, rfl, rfl⟩
  simp [set_value_fenics, h]

/-- Witness for C10: the string assignment of `test_value_fenics_setter_error`
and the construction of `test_init`. -/
theorem c10_witness :
    set_value_fenics (PyObj.pystr "coucou") = .error
      ("Value must be a dolfinx.fem.Function, dolfinx.fem.Constant, or a np.ndarray not "
        ++ PyObj.typeName (PyObj.pystr "coucou")) ∧
    (∃ pre post : String,
      ("Value must be a dolfinx.fem.Function, dolfinx.fem.Constant, or a np.ndarray not " : String)
        = pre ++ "dolfinx.fem.Function" ++ post) ∧
    (∃ pre post : String,
      ("Value must be a dolfinx.fem.Function, dolfinx.fem.Constant, or a np.ndarray not " : String)
        = pre ++ "dolfinx.fem.Constant" ++ post) ∧
    (∃ pre post : String,
      ("Value must be a dolfinx.fem.Function, dolfinx.fem.Constant, or a np.ndarray not " : String)
        = pre ++ "np.ndarray" ++ post) ∧
    (FluxBC.init 1 (BCValue.number 1) "test").value_fenics = none ∧
    (FluxBC.init 1 (BCValue.number 1) "test").bc_expr = none :=
  c10_setter_and_init (PyObj.pystr "coucou") rfl 1 (BCValue.number 1) "test"

end Festim
